import Mathlib

/-!
Verification of the display/LED state machine of the MT-32 emulator
(`src/mt32emu/src/Display.h`, class `MT32Emu::Display`) and of its Qt
monitor/renderer collaborators (`SynthStateMonitor::handleUpdate` and
`LCDWidget::paintEvent` in `src/unnamed/part_000`).

Only the header of class `Display` is present in the sources, so the bodies
of its methods are modelled from the specification (each such definition
carries a doc comment starting `Modelled from the spec:`).  The Qt monitor
and LCD renderer code is present in full and is embedded directly.
-/

namespace MT32Emu

/-- `Display::LCD_TEXT_SIZE` from `Display.h`. -/
def LCD_TEXT_SIZE : Nat := 20

/-- The `Display::Mode` enum from `Display.h`. -/
inductive Mode where
  | MAIN
  | STARTUP_MESSAGE
  | PROGRAM_CHANGE
  | CUSTOM_MESSAGE
  | ERROR_MESSAGE
deriving DecidableEq, Repr

/-- Modelled from the spec: the device-specific configuration constants the
spec leaves open (hold durations; the fixed startup, error and default MAIN
texts; the formatted program-change text).  The spec says: "exact hold
durations (LED window, text-mode window) and the fixed error/startup strings
are device-specific constants ... treat as configuration constants". -/
structure DisplayConfig where
  TEXT_HOLD_DURATION : Nat
  LED_HOLD_DURATION : Nat
  mainText : List Nat
  startupText : List Nat
  errorText : List Nat
  programChangeText : Nat → List Nat

/-- Well-formedness of a configuration: every fixed text is exactly
`LCD_TEXT_SIZE` bytes, as the 20-byte buffers require. -/
def DisplayConfig.WF (cfg : DisplayConfig) : Prop :=
  cfg.mainText.length = LCD_TEXT_SIZE ∧
  cfg.startupText.length = LCD_TEXT_SIZE ∧
  cfg.errorText.length = LCD_TEXT_SIZE ∧
  ∀ p, (cfg.programChangeText p).length = LCD_TEXT_SIZE

/-- The mutable state of class `Display` (fields from `Display.h`, lines
56-65).  Timestamps are ticks of the monotonically increasing clock the
synthesizer supplies; buffers are lists of byte values. -/
structure Display where
  mode : Mode
  displayResetTimestamp : Nat
  displayResetScheduled : Bool
  midiMessageLEDResetTimestamp : Nat
  midiMessagePlayedSinceLastReset : Bool
  rhythmStateResetTimestamp : Nat
  rhythmNotePlayedSinceLastReset : Bool
  displayBuffer : List Nat
  customMessageBuffer : List Nat
deriving DecidableEq, Repr

/-- Modelled from the spec: `Display::shouldResetTimer` (declared in
`Display.h` line 68, body unavailable).  The spec's boundary rule: "calling
`updateDisplayState` at exactly `now == resetTimestamp` must already show the
reverted/default state (deadline is inclusive)". -/
def shouldResetTimer (now scheduledResetTimestamp : Nat) : Bool :=
  scheduledResetTimestamp ≤ now

/-- Modelled from the spec: `Display::scheduleDisplayReset` (declared in
`Display.h` line 67, body unavailable): "schedules
`displayResetTimestamp = now + TEXT_HOLD_DURATION`, sets
`displayResetScheduled = true`". -/
def scheduleDisplayReset (cfg : DisplayConfig) (now : Nat) (s : Display) : Display :=
  { s with displayResetTimestamp := now + cfg.TEXT_HOLD_DURATION,
           displayResetScheduled := true }

/-- Modelled from the spec: the constructor `Display::Display` (declared in
`Display.h` line 41, body unavailable): "initial mode = STARTUP_MESSAGE,
immediately revert-scheduled"; the startup banner is in the display buffer
and the timed flags start clear.  `t0` is the construction tick. -/
def initialDisplay (cfg : DisplayConfig) (t0 : Nat) : Display :=
  { mode := Mode.STARTUP_MESSAGE,
    displayResetTimestamp := t0 + cfg.TEXT_HOLD_DURATION,
    displayResetScheduled := true,
    midiMessageLEDResetTimestamp := 0,
    midiMessagePlayedSinceLastReset := false,
    rhythmStateResetTimestamp := 0,
    rhythmNotePlayedSinceLastReset := false,
    displayBuffer := cfg.startupText,
    customMessageBuffer := List.replicate LCD_TEXT_SIZE 32 }

/-- Modelled from the spec: `Display::midiMessagePlayed` (declared in
`Display.h` line 45, body unavailable): "sets
`midiMessagePlayedSinceLastReset = true`; schedules
`midiMessageLEDResetTimestamp = now + LED_HOLD_DURATION`.  No mode change." -/
def midiMessagePlayed (cfg : DisplayConfig) (now : Nat) (s : Display) : Display :=
  { s with midiMessagePlayedSinceLastReset := true,
           midiMessageLEDResetTimestamp := now + cfg.LED_HOLD_DURATION }

/-- Modelled from the spec: `Display::rhythmNotePlayed` (declared in
`Display.h` line 46, body unavailable): "Same shape as above but updates the
rhythm flag/timer pair; independent state". -/
def rhythmNotePlayed (cfg : DisplayConfig) (now : Nat) (s : Display) : Display :=
  { s with rhythmNotePlayedSinceLastReset := true,
           rhythmStateResetTimestamp := now + cfg.LED_HOLD_DURATION }

/-- Modelled from the spec: `Display::programChanged` (declared in
`Display.h` line 47, body unavailable): "formats a fixed textual description
of the new patch into `displayBuffer`, sets `mode = PROGRAM_CHANGE`,
schedules `displayResetTimestamp = now + TEXT_HOLD_DURATION`, sets
`displayResetScheduled = true`". -/
def programChanged (cfg : DisplayConfig) (partIndex : Nat) (now : Nat) (s : Display) : Display :=
  scheduleDisplayReset cfg now
    { s with mode := Mode.PROGRAM_CHANGE,
             displayBuffer := cfg.programChangeText partIndex }

/-- Modelled from the spec: `Display::checksumErrorOccurred` (declared in
`Display.h` line 48, body unavailable): "writes a fixed error string into
`displayBuffer`, sets `mode = ERROR_MESSAGE`, schedules the shared reset
timer identically to the above". -/
def checksumErrorOccurred (cfg : DisplayConfig) (now : Nat) (s : Display) : Display :=
  scheduleDisplayReset cfg now
    { s with mode := Mode.ERROR_MESSAGE,
             displayBuffer := cfg.errorText }

/-- Copy `length` bytes read from `message` into `buf` starting at
`startIndex` (bytes read past the end of the supplied window are modelled as
0, as a C pointer read always yields a byte). -/
def writeRange (buf message : List Nat) (startIndex length : Nat) : List Nat :=
  buf.take startIndex
    ++ (List.range length).map (fun i => message.getD i 0)
    ++ buf.drop (startIndex + length)

/-- Modelled from the spec: `Display::customDisplayMessageReceived` (declared
in `Display.h` line 49, body unavailable): "`startIndex + length` must not
exceed the buffer size — if it does, the call fails ... and state is
unchanged.  On success, copies `length` bytes into `customMessageBuffer` at
`startIndex`, switches `mode = CUSTOM_MESSAGE`, (re)schedules the shared
reset timer, and returns true". -/
def customDisplayMessageReceived (cfg : DisplayConfig) (message : List Nat)
    (startIndex length : Nat) (now : Nat) (s : Display) : Display × Bool :=
  if LCD_TEXT_SIZE < startIndex + length then
    (s, false)
  else
    (scheduleDisplayReset cfg now
      { s with mode := Mode.CUSTOM_MESSAGE,
               customMessageBuffer :=
                 writeRange s.customMessageBuffer message startIndex length },
     true)

/-- Modelled from the spec: `Display::updateDisplayState` (declared in
`Display.h` line 43, body unavailable).  Steps per the spec: evaluate the
three independent timers against `now`, clearing each fired timer's
flag/mode (`maybeResetTimer` semantics, declared in `Display.h` line 69);
when the shared display timer fires revert `mode` to MAIN (text reverts to
the default screen) and clear `displayResetScheduled`; then return the LED
flag and the buffer appropriate to `mode` (`customMessageBuffer` when
`mode == CUSTOM_MESSAGE`, else `displayBuffer`). -/
def updateDisplayState (cfg : DisplayConfig) (now : Nat) (s : Display) :
    Display × Bool × List Nat :=
  let s1 :=
    if s.displayResetScheduled && shouldResetTimer now s.displayResetTimestamp then
      { s with mode := Mode.MAIN,
               displayBuffer := cfg.mainText,
               displayResetScheduled := false }
    else s
  let s2 :=
    if s1.midiMessagePlayedSinceLastReset &&
        shouldResetTimer now s1.midiMessageLEDResetTimestamp then
      { s1 with midiMessagePlayedSinceLastReset := false }
    else s1
  let s3 :=
    if s2.rhythmNotePlayedSinceLastReset &&
        shouldResetTimer now s2.rhythmStateResetTimestamp then
      { s2 with rhythmNotePlayedSinceLastReset := false }
    else s2
  (s3, s3.midiMessagePlayedSinceLastReset,
    if s3.mode = Mode.CUSTOM_MESSAGE then s3.customMessageBuffer else s3.displayBuffer)

/-- One externally visible event of the `Display` component, to be paired
with the tick at which it is invoked. -/
inductive Event where
  | midiMessagePlayed
  | rhythmNotePlayed
  | programChanged (partIndex : Nat)
  | checksumErrorOccurred
  | customDisplayMessageReceived (message : List Nat) (startIndex length : Nat)
  | updateDisplayState
deriving DecidableEq, Repr

/-- Apply one timestamped event to the display state (the value returned to
the caller, if any, is discarded). -/
def applyEvent (cfg : DisplayConfig) (t : Nat) (e : Event) (s : Display) : Display :=
  match e with
  | Event.midiMessagePlayed => midiMessagePlayed cfg t s
  | Event.rhythmNotePlayed => rhythmNotePlayed cfg t s
  | Event.programChanged p => programChanged cfg p t s
  | Event.checksumErrorOccurred => checksumErrorOccurred cfg t s
  | Event.customDisplayMessageReceived m i l =>
      (customDisplayMessageReceived cfg m i l t s).1
  | Event.updateDisplayState => (updateDisplayState cfg t s).1

/-- Apply a whole timestamped event trace, left to right. -/
def applyTrace (cfg : DisplayConfig) (T : List (Nat × Event)) (s : Display) : Display :=
  T.foldl (fun s te => applyEvent cfg te.1 te.2 s) s

end MT32Emu

namespace SynthStateMonitorModel

/-- `MINIMUM_UPDATE_INTERVAL_NANOS = 30 * MasterClock::NANOS_PER_MILLISECOND`
from `src/unnamed/part_000` line 23. -/
def MINIMUM_UPDATE_INTERVAL_NANOS : Int := 30 * 1000000

/-- The fields of `SynthStateMonitor` that `handleUpdate` reads and writes:
the `enabled` flag and `previousUpdateNanos` (a signed 64-bit nanosecond
clock value, modelled as `Int`). -/
structure MonitorState where
  enabled : Bool
  previousUpdateNanos : Int
deriving DecidableEq, Repr

/-- `SynthStateMonitor::enableMonitor` from `src/unnamed/part_000` lines
72-79: on enable, `previousUpdateNanos` is set to the current clock minus
the minimum interval so that the next `handleUpdate` passes the throttle. -/
def enableMonitor (s : MonitorState) (enable : Bool) (clockNanos : Int) : MonitorState :=
  if enable then
    { enabled := true,
      previousUpdateNanos := clockNanos - MINIMUM_UPDATE_INTERVAL_NANOS }
  else
    { s with enabled := false }

/-- `SynthStateMonitor::handleUpdate` from `src/unnamed/part_000` lines
110-118.  `nanosNow` is the value `MasterClock::getClockNanos()` returns
during this invocation.  The returned `Bool` is true exactly when the body
runs past the throttle guard, i.e. when `synthRoute->getDisplayState` is
read and the LCD widget repainted. -/
def handleUpdate (s : MonitorState) (nanosNow : Int) : MonitorState × Bool :=
  if !s.enabled then (s, false)
  else if nanosNow - s.previousUpdateNanos < MINIMUM_UPDATE_INTERVAL_NANOS then (s, false)
  else ({ s with previousUpdateNanos := nanosNow }, true)

/-- Run `handleUpdate` over a list of invocation clock times and collect the
times of the invocations that actually read the display state. -/
def runReads (s : MonitorState) : List Int → List Int
  | [] => []
  | t :: ts =>
    let r := handleUpdate s t
    if r.2 then t :: runReads r.1 ts else runReads r.1 ts

end SynthStateMonitorModel

namespace LCDWidgetModel

/-- The character remapping of `LCDWidget::paintEvent` from
`src/unnamed/part_000` lines 212-221, applied to each byte `c` of the
20-byte LCD text before the font lookup:
bytes above 0x7f become the blank glyph 0x20, 0x01 becomes 0x80, 0x02
becomes 0x7c, other bytes below 0x20 become 0x20. -/
def mapLcdChar (c : Nat) : Nat :=
  if 0x7f < c then 0x20
  else if c = 0x01 then 0x80
  else if c = 0x02 then 0x7c
  else if c < 0x20 then 0x20
  else c

/-- The index into `Font_6x8` used by `LCDWidget::paintEvent`: the remapped
character minus 0x20 (`c -= 0x20` at line 221). -/
def fontIndex (c : Nat) : Nat := mapLcdChar c - 0x20

end LCDWidgetModel

namespace MT32Emu

/-- A concrete well-formed configuration, used to instantiate universally
quantified statements at explicit inputs. -/
def sampleConfig : DisplayConfig :=
  { TEXT_HOLD_DURATION := 100,
    LED_HOLD_DURATION := 50,
    mainText := List.replicate 20 32,
    startupText := List.replicate 20 42,
    errorText := List.replicate 20 69,
    programChangeText := fun p => List.replicate 20 (80 + p % 10) }

theorem sampleConfig_WF : sampleConfig.WF := by
  refine ⟨rfl, rfl, rfl, fun p => ?_⟩
  simp [sampleConfig, LCD_TEXT_SIZE]

/-- C2: an out-of-range custom-message write (`startIndex + length > 20`)
returns false and leaves the whole controller state exactly as it was;
an in-bounds write is accepted (returns true), so the range check is the
only caller-visible error. -/
theorem customDisplayMessageReceived_range_error (cfg : DisplayConfig)
    (message : List Nat) (startIndex length now : Nat) (s : Display)
    (h : LCD_TEXT_SIZE < startIndex + length) :
    customDisplayMessageReceived cfg message startIndex length now s = (s, false) ∧
    (∀ startIndex2 length2, startIndex2 + length2 ≤ LCD_TEXT_SIZE →
      (customDisplayMessageReceived cfg message startIndex2 length2 now s).2 = true) := by
  constructor
  · simp [customDisplayMessageReceived, h]
  · intro i2 l2 h2
    simp [customDisplayMessageReceived, Nat.not_lt.mpr h2]

theorem customDisplayMessageReceived_range_error_witness :
    LCD_TEXT_SIZE < 15 + 10 ∧
    (customDisplayMessageReceived sampleConfig (List.replicate 10 65) 15 10 7
        (initialDisplay sampleConfig 0) = (initialDisplay sampleConfig 0, false) ∧
      (∀ startIndex2 length2, startIndex2 + length2 ≤ LCD_TEXT_SIZE →
        (customDisplayMessageReceived sampleConfig (List.replicate 10 65) startIndex2 length2 7
          (initialDisplay sampleConfig 0)).2 = true)) :=
  ⟨by decide,
   customDisplayMessageReceived_range_error sampleConfig (List.replicate 10 65) 15 10 7
     (initialDisplay sampleConfig 0) (by decide)⟩

theorem updateDisplayState_idem (cfg : DisplayConfig) (now : Nat) (s : Display) :
    updateDisplayState cfg now (updateDisplayState cfg now s).1
      = updateDisplayState cfg now s := by
  cases hs : s.displayResetScheduled <;>
    cases hm : s.midiMessagePlayedSinceLastReset <;>
      cases hr : s.rhythmNotePlayedSinceLastReset <;>
        by_cases h1 : s.displayResetTimestamp ≤ now <;>
          by_cases h2 : s.midiMessageLEDResetTimestamp ≤ now <;>
            by_cases h3 : s.rhythmStateResetTimestamp ≤ now <;>
              simp [updateDisplayState, shouldResetTimer, hs, hm, hr, h1, h2, h3]

/-- Every state reachable from construction keeps the display revert
scheduled whenever a timed (non-MAIN) text mode is active. -/
def ModeScheduledInv (s : Display) : Prop :=
  s.mode ≠ Mode.MAIN → s.displayResetScheduled = true

theorem modeScheduledInv_applyEvent (cfg : DisplayConfig) (t : Nat) (e : Event)
    (s : Display) (h : ModeScheduledInv s) : ModeScheduledInv (applyEvent cfg t e s) := by
  cases e <;>
    simp only [applyEvent, midiMessagePlayed, rhythmNotePlayed, programChanged,
      checksumErrorOccurred, customDisplayMessageReceived, scheduleDisplayReset,
      updateDisplayState, ModeScheduledInv] at h ⊢ <;>
    intro hm <;>
    first
      | trivial
      | exact h hm
      | (split_ifs at hm ⊢ <;> simp_all)

theorem modeScheduledInv_applyTrace (cfg : DisplayConfig) (T : List (Nat × Event))
    (s : Display) (h : ModeScheduledInv s) : ModeScheduledInv (applyTrace cfg T s) := by
  induction T generalizing s with
  | nil => exact h
  | cons te T ih =>
    exact ih _ (modeScheduledInv_applyEvent cfg te.1 te.2 s h)

/-- C1: after any event trace from construction, an `updateDisplayState`
whose `now` is at or past the scheduled reset deadline (the deadline is
inclusive) while a timed text mode is active reverts the mode to MAIN and
returns the default MAIN text, and calling `updateDisplayState` again with
the same `now` returns the same result and leaves the state unchanged
(stable fixed point). -/
theorem timed_mode_reverts (cfg : DisplayConfig) (T : List (Nat × Event)) (t0 now : Nat)
    (hmode : (applyTrace cfg T (initialDisplay cfg t0)).mode ≠ Mode.MAIN)
    (hdue : (applyTrace cfg T (initialDisplay cfg t0)).displayResetTimestamp ≤ now) :
    (updateDisplayState cfg now (applyTrace cfg T (initialDisplay cfg t0))).1.mode
      = Mode.MAIN ∧
    (updateDisplayState cfg now (applyTrace cfg T (initialDisplay cfg t0))).2.2
      = cfg.mainText ∧
    updateDisplayState cfg now
        (updateDisplayState cfg now (applyTrace cfg T (initialDisplay cfg t0))).1
      = updateDisplayState cfg now (applyTrace cfg T (initialDisplay cfg t0)) := by
  have hinv : ModeScheduledInv (applyTrace cfg T (initialDisplay cfg t0)) :=
    modeScheduledInv_applyTrace cfg T _ (fun _ => rfl)
  have hsched := hinv hmode
  refine ⟨?_, ?_, updateDisplayState_idem cfg now _⟩ <;>
  · simp only [updateDisplayState, shouldResetTimer, hsched, hdue]
    split_ifs <;> simp_all

theorem timed_mode_reverts_witness :
    ((applyTrace sampleConfig [(3, Event.programChanged 2)]
        (initialDisplay sampleConfig 0)).mode ≠ Mode.MAIN ∧
      (applyTrace sampleConfig [(3, Event.programChanged 2)]
        (initialDisplay sampleConfig 0)).displayResetTimestamp ≤ 103) ∧
    ((updateDisplayState sampleConfig 103
        (applyTrace sampleConfig [(3, Event.programChanged 2)]
          (initialDisplay sampleConfig 0))).1.mode = Mode.MAIN ∧
    (updateDisplayState sampleConfig 103
        (applyTrace sampleConfig [(3, Event.programChanged 2)]
          (initialDisplay sampleConfig 0))).2.2 = sampleConfig.mainText ∧
    updateDisplayState sampleConfig 103
        (updateDisplayState sampleConfig 103
          (applyTrace sampleConfig [(3, Event.programChanged 2)]
            (initialDisplay sampleConfig 0))).1
      = updateDisplayState sampleConfig 103
          (applyTrace sampleConfig [(3, Event.programChanged 2)]
            (initialDisplay sampleConfig 0))) :=
  ⟨⟨by decide, by decide⟩,
   timed_mode_reverts sampleConfig [(3, Event.programChanged 2)] 0 103
     (by decide) (by decide)⟩

theorem range_map_getD (msg : List Nat) (len : Nat) (h : len ≤ msg.length) :
    (List.range len).map (fun i => msg.getD i 0) = msg.take len := by
  apply List.ext_getElem
  · simp [h]
  · intro i h1 h2
    simp only [List.getElem_map, List.getElem_range, List.getElem_take]
    rw [List.getD_eq_getElem]

/-- C3: writing a custom message in two in-bounds fragments (bytes 0-9 at
offset 0, then bytes 10-19 at offset 10, five ticks later) has both calls
accepted, leaves the controller in CUSTOM_MESSAGE mode, and an
`updateDisplayState` one tick later — still before the re-armed hold
deadline — returns the full 20-byte concatenation of the two fragments. -/
theorem customDisplayMessageReceived_round_trip (cfg : DisplayConfig) (bytes : List Nat)
    (t0 : Nat) (s : Display)
    (hb : bytes.length = 20) (hbuf : s.customMessageBuffer.length = 20)
    (hhold : 1 < cfg.TEXT_HOLD_DURATION) :
    (customDisplayMessageReceived cfg (bytes.take 10) 0 10 t0 s).2 = true ∧
    (customDisplayMessageReceived cfg (bytes.drop 10) 10 10 (t0 + 5)
        (customDisplayMessageReceived cfg (bytes.take 10) 0 10 t0 s).1).2 = true ∧
    (customDisplayMessageReceived cfg (bytes.drop 10) 10 10 (t0 + 5)
        (customDisplayMessageReceived cfg (bytes.take 10) 0 10 t0 s).1).1.mode
      = Mode.CUSTOM_MESSAGE ∧
    (updateDisplayState cfg (t0 + 6)
        (customDisplayMessageReceived cfg (bytes.drop 10) 10 10 (t0 + 5)
          (customDisplayMessageReceived cfg (bytes.take 10) 0 10 t0 s).1).1).2.2 = bytes := by
  have e1 : writeRange s.customMessageBuffer (bytes.take 10) 0 10
      = bytes.take 10 ++ s.customMessageBuffer.drop 10 := by
    rw [writeRange, range_map_getD _ _ (by simp [hb])]
    simp [List.take_take]
  have e2 : writeRange (bytes.take 10 ++ s.customMessageBuffer.drop 10) (bytes.drop 10) 10 10
      = bytes := by
    rw [writeRange, range_map_getD _ _ (by simp [hb])]
    have ht : (bytes.take 10 ++ s.customMessageBuffer.drop 10).take 10 = bytes.take 10 :=
      List.take_left' (by simp [hb])
    have hd : (bytes.take 10 ++ s.customMessageBuffer.drop 10).drop 20 = [] := by
      rw [List.drop_eq_nil_iff]
      simp [hb, hbuf]
    have htk : (bytes.drop 10).take 10 = bytes.drop 10 :=
      List.take_of_length_le (by simp [hb])
    rw [ht, hd, htk, List.append_nil, List.take_append_drop]
  have hguard : ¬ (t0 + 5 + cfg.TEXT_HOLD_DURATION ≤ t0 + 6) := by omega
  refine ⟨?_, ?_, ?_, ?_⟩ <;>
  · simp only [customDisplayMessageReceived, scheduleDisplayReset, LCD_TEXT_SIZE,
      updateDisplayState, shouldResetTimer]
    norm_num [e1, e2, hguard]
    try split_ifs <;> simp_all

theorem customDisplayMessageReceived_round_trip_witness :
    ((List.range 20).length = 20 ∧
      (initialDisplay sampleConfig 0).customMessageBuffer.length = 20 ∧
      1 < sampleConfig.TEXT_HOLD_DURATION) ∧
    ((customDisplayMessageReceived sampleConfig ((List.range 20).take 10) 0 10 40
        (initialDisplay sampleConfig 0)).2 = true ∧
    (customDisplayMessageReceived sampleConfig ((List.range 20).drop 10) 10 10 (40 + 5)
        (customDisplayMessageReceived sampleConfig ((List.range 20).take 10) 0 10 40
          (initialDisplay sampleConfig 0)).1).2 = true ∧
    (customDisplayMessageReceived sampleConfig ((List.range 20).drop 10) 10 10 (40 + 5)
        (customDisplayMessageReceived sampleConfig ((List.range 20).take 10) 0 10 40
          (initialDisplay sampleConfig 0)).1).1.mode
      = Mode.CUSTOM_MESSAGE ∧
    (updateDisplayState sampleConfig (40 + 6)
        (customDisplayMessageReceived sampleConfig ((List.range 20).drop 10) 10 10 (40 + 5)
          (customDisplayMessageReceived sampleConfig ((List.range 20).take 10) 0 10 40
            (initialDisplay sampleConfig 0)).1).1).2.2 = List.range 20) :=
  ⟨⟨by decide, by decide, by decide⟩,
   customDisplayMessageReceived_round_trip sampleConfig (List.range 20) 40
     (initialDisplay sampleConfig 0) (by decide) (by decide) (by decide)⟩

/-- C4: a program change followed by a checksum error leaves the controller
in ERROR_MESSAGE mode with the shared reset timer re-armed from the later
event, and any `updateDisplayState` before that re-armed deadline returns
the error text, not the program-change text: the last timed-mode writer
wins. -/
theorem checksumError_overwrites_programChange (cfg : DisplayConfig) (t0 now : Nat)
    (s : Display)
    (hne : cfg.errorText ≠ cfg.programChangeText 3)
    (hnow : now < t0 + 1 + cfg.TEXT_HOLD_DURATION) :
    (checksumErrorOccurred cfg (t0 + 1) (programChanged cfg 3 t0 s)).mode
      = Mode.ERROR_MESSAGE ∧
    (checksumErrorOccurred cfg (t0 + 1) (programChanged cfg 3 t0 s)).displayResetTimestamp
      = t0 + 1 + cfg.TEXT_HOLD_DURATION ∧
    (updateDisplayState cfg now
        (checksumErrorOccurred cfg (t0 + 1) (programChanged cfg 3 t0 s))).2.2
      = cfg.errorText ∧
    (updateDisplayState cfg now
        (checksumErrorOccurred cfg (t0 + 1) (programChanged cfg 3 t0 s))).2.2
      ≠ cfg.programChangeText 3 := by
  have hnl : ¬ (t0 + 1 + cfg.TEXT_HOLD_DURATION ≤ now) := Nat.not_le.mpr hnow
  refine ⟨rfl, rfl, ?_, ?_⟩ <;>
  · simp only [updateDisplayState, checksumErrorOccurred, programChanged,
      scheduleDisplayReset, shouldResetTimer, hnl, decide_eq_true_eq]
    split_ifs <;> simp_all

theorem checksumError_overwrites_programChange_witness :
    (sampleConfig.errorText ≠ sampleConfig.programChangeText 3 ∧
      50 < 10 + 1 + sampleConfig.TEXT_HOLD_DURATION) ∧
    ((checksumErrorOccurred sampleConfig (10 + 1)
        (programChanged sampleConfig 3 10 (initialDisplay sampleConfig 0))).mode
      = Mode.ERROR_MESSAGE ∧
    (checksumErrorOccurred sampleConfig (10 + 1)
        (programChanged sampleConfig 3 10 (initialDisplay sampleConfig 0))).displayResetTimestamp
      = 10 + 1 + sampleConfig.TEXT_HOLD_DURATION ∧
    (updateDisplayState sampleConfig 50
        (checksumErrorOccurred sampleConfig (10 + 1)
          (programChanged sampleConfig 3 10 (initialDisplay sampleConfig 0)))).2.2
      = sampleConfig.errorText ∧
    (updateDisplayState sampleConfig 50
        (checksumErrorOccurred sampleConfig (10 + 1)
          (programChanged sampleConfig 3 10 (initialDisplay sampleConfig 0)))).2.2
      ≠ sampleConfig.programChangeText 3) :=
  ⟨⟨by decide, by decide⟩,
   checksumError_overwrites_programChange sampleConfig 10 50 (initialDisplay sampleConfig 0)
     (by decide) (by decide)⟩

/-- Both text buffers hold exactly `LCD_TEXT_SIZE` bytes. -/
def BufWF (s : Display) : Prop :=
  s.displayBuffer.length = LCD_TEXT_SIZE ∧ s.customMessageBuffer.length = LCD_TEXT_SIZE

theorem writeRange_length (buf message : List Nat) (startIndex length : Nat)
    (hb : buf.length = LCD_TEXT_SIZE) (h : startIndex + length ≤ LCD_TEXT_SIZE) :
    (writeRange buf message startIndex length).length = LCD_TEXT_SIZE := by
  simp only [writeRange, List.length_append, List.length_map, List.length_range,
    List.length_take, List.length_drop, hb]
  omega

theorem bufWF_applyEvent (cfg : DisplayConfig) (hcfg : cfg.WF) (t : Nat) (e : Event)
    (s : Display) (h : BufWF s) : BufWF (applyEvent cfg t e s) := by
  obtain ⟨hmain, hstart, herr, hprog⟩ := hcfg
  obtain ⟨h1, h2⟩ := h
  cases e with
  | midiMessagePlayed => exact ⟨h1, h2⟩
  | rhythmNotePlayed => exact ⟨h1, h2⟩
  | programChanged p => exact ⟨hprog p, h2⟩
  | checksumErrorOccurred => exact ⟨herr, h2⟩
  | customDisplayMessageReceived m i l =>
    simp only [applyEvent, customDisplayMessageReceived, scheduleDisplayReset]
    split_ifs with hc
    · exact ⟨h1, h2⟩
    · exact ⟨h1, writeRange_length _ _ _ _ h2 (Nat.not_lt.mp hc)⟩
  | updateDisplayState =>
    simp only [applyEvent, updateDisplayState]
    split_ifs <;> simp_all [BufWF]

theorem bufWF_applyTrace (cfg : DisplayConfig) (hcfg : cfg.WF) (T : List (Nat × Event))
    (s : Display) (h : BufWF s) : BufWF (applyTrace cfg T s) := by
  induction T generalizing s with
  | nil => exact h
  | cons te T ih => exact ih _ (bufWF_applyEvent cfg hcfg te.1 te.2 s h)

/-- C6: after any event trace from construction, `updateDisplayState` fills
the caller's output with exactly 20 bytes; the bytes copied are
`customMessageBuffer` when the (post-reset) mode is CUSTOM_MESSAGE and
`displayBuffer` in every other mode, returned verbatim without
sanitization. -/
theorem buffer_selection (cfg : DisplayConfig) (hcfg : cfg.WF) (T : List (Nat × Event))
    (t0 now : Nat) :
    (updateDisplayState cfg now (applyTrace cfg T (initialDisplay cfg t0))).2.2.length
      = LCD_TEXT_SIZE ∧
    (updateDisplayState cfg now (applyTrace cfg T (initialDisplay cfg t0))).2.2
      = (if (updateDisplayState cfg now (applyTrace cfg T (initialDisplay cfg t0))).1.mode
            = Mode.CUSTOM_MESSAGE
         then (updateDisplayState cfg now
            (applyTrace cfg T (initialDisplay cfg t0))).1.customMessageBuffer
         else (updateDisplayState cfg now
            (applyTrace cfg T (initialDisplay cfg t0))).1.displayBuffer) := by
  have hinit : BufWF (initialDisplay cfg t0) :=
    ⟨hcfg.2.1, by simp [initialDisplay, LCD_TEXT_SIZE]⟩
  have hbuf : BufWF (applyTrace cfg T (initialDisplay cfg t0)) :=
    bufWF_applyTrace cfg hcfg T _ hinit
  obtain ⟨h1, h2⟩ := hbuf
  have hpost : BufWF (updateDisplayState cfg now (applyTrace cfg T (initialDisplay cfg t0))).1 :=
    bufWF_applyEvent cfg hcfg now Event.updateDisplayState _ ⟨h1, h2⟩
  have hsel : (updateDisplayState cfg now (applyTrace cfg T (initialDisplay cfg t0))).2.2
      = (if (updateDisplayState cfg now (applyTrace cfg T (initialDisplay cfg t0))).1.mode
            = Mode.CUSTOM_MESSAGE
         then (updateDisplayState cfg now
            (applyTrace cfg T (initialDisplay cfg t0))).1.customMessageBuffer
         else (updateDisplayState cfg now
            (applyTrace cfg T (initialDisplay cfg t0))).1.displayBuffer) := by
    simp only [updateDisplayState]
  refine ⟨?_, hsel⟩
  rw [hsel]
  split_ifs
  · exact hpost.2
  · exact hpost.1

theorem buffer_selection_witness :
    sampleConfig.WF ∧
    ((updateDisplayState sampleConfig 60
        (applyTrace sampleConfig [(2, Event.midiMessagePlayed), (7, Event.checksumErrorOccurred)]
          (initialDisplay sampleConfig 0))).2.2.length = LCD_TEXT_SIZE ∧
    (updateDisplayState sampleConfig 60
        (applyTrace sampleConfig [(2, Event.midiMessagePlayed), (7, Event.checksumErrorOccurred)]
          (initialDisplay sampleConfig 0))).2.2
      = (if (updateDisplayState sampleConfig 60
              (applyTrace sampleConfig
                [(2, Event.midiMessagePlayed), (7, Event.checksumErrorOccurred)]
                (initialDisplay sampleConfig 0))).1.mode = Mode.CUSTOM_MESSAGE
         then (updateDisplayState sampleConfig 60
              (applyTrace sampleConfig
                [(2, Event.midiMessagePlayed), (7, Event.checksumErrorOccurred)]
                (initialDisplay sampleConfig 0))).1.customMessageBuffer
         else (updateDisplayState sampleConfig 60
              (applyTrace sampleConfig
                [(2, Event.midiMessagePlayed), (7, Event.checksumErrorOccurred)]
                (initialDisplay sampleConfig 0))).1.displayBuffer)) :=
  ⟨sampleConfig_WF,
   buffer_selection sampleConfig sampleConfig_WF
     [(2, Event.midiMessagePlayed), (7, Event.checksumErrorOccurred)] 0 60⟩

/-- C7: `midiMessagePlayed` and `rhythmNotePlayed` never change the mode,
either text buffer, or the shared display reset timer; each touches only its
own flag/timer pair, so the two pairs are mutually independent and
independent of `mode`. -/
theorem led_rhythm_frame_independence (cfg : DisplayConfig) (now : Nat) (s : Display) :
    (midiMessagePlayed cfg now s).mode = s.mode ∧
    (midiMessagePlayed cfg now s).displayBuffer = s.displayBuffer ∧
    (midiMessagePlayed cfg now s).customMessageBuffer = s.customMessageBuffer ∧
    (midiMessagePlayed cfg now s).displayResetTimestamp = s.displayResetTimestamp ∧
    (midiMessagePlayed cfg now s).displayResetScheduled = s.displayResetScheduled ∧
    (midiMessagePlayed cfg now s).rhythmStateResetTimestamp = s.rhythmStateResetTimestamp ∧
    (midiMessagePlayed cfg now s).rhythmNotePlayedSinceLastReset
      = s.rhythmNotePlayedSinceLastReset ∧
    (rhythmNotePlayed cfg now s).mode = s.mode ∧
    (rhythmNotePlayed cfg now s).displayBuffer = s.displayBuffer ∧
    (rhythmNotePlayed cfg now s).customMessageBuffer = s.customMessageBuffer ∧
    (rhythmNotePlayed cfg now s).displayResetTimestamp = s.displayResetTimestamp ∧
    (rhythmNotePlayed cfg now s).displayResetScheduled = s.displayResetScheduled ∧
    (rhythmNotePlayed cfg now s).midiMessageLEDResetTimestamp
      = s.midiMessageLEDResetTimestamp ∧
    (rhythmNotePlayed cfg now s).midiMessagePlayedSinceLastReset
      = s.midiMessagePlayedSinceLastReset :=
  ⟨rfl, rfl, rfl, rfl, rfl, rfl, rfl, rfl, rfl, rfl, rfl, rfl, rfl, rfl⟩

/-- C8: a freshly constructed controller is in mode STARTUP_MESSAGE with the
display revert already scheduled for construction time plus the text hold
duration, and the first `updateDisplayState` at or past that deadline shows
the default MAIN screen. -/
theorem initialDisplay_startup_then_main (cfg : DisplayConfig) (t0 now : Nat)
    (h : t0 + cfg.TEXT_HOLD_DURATION ≤ now) :
    (initialDisplay cfg t0).mode = Mode.STARTUP_MESSAGE ∧
    (initialDisplay cfg t0).displayResetScheduled = true ∧
    (initialDisplay cfg t0).displayResetTimestamp = t0 + cfg.TEXT_HOLD_DURATION ∧
    (updateDisplayState cfg now (initialDisplay cfg t0)).1.mode = Mode.MAIN ∧
    (updateDisplayState cfg now (initialDisplay cfg t0)).2.2 = cfg.mainText := by
  refine ⟨rfl, rfl, rfl, ?_, ?_⟩ <;>
    simp [updateDisplayState, initialDisplay, shouldResetTimer, h]

theorem initialDisplay_startup_then_main_witness :
    0 + sampleConfig.TEXT_HOLD_DURATION ≤ 100 ∧
    ((initialDisplay sampleConfig 0).mode = Mode.STARTUP_MESSAGE ∧
      (initialDisplay sampleConfig 0).displayResetScheduled = true ∧
      (initialDisplay sampleConfig 0).displayResetTimestamp
        = 0 + sampleConfig.TEXT_HOLD_DURATION ∧
      (updateDisplayState sampleConfig 100 (initialDisplay sampleConfig 0)).1.mode
        = Mode.MAIN ∧
      (updateDisplayState sampleConfig 100 (initialDisplay sampleConfig 0)).2.2
        = sampleConfig.mainText) :=
  ⟨by decide, initialDisplay_startup_then_main sampleConfig 0 100 (by decide)⟩

end MT32Emu

namespace LCDWidgetModel

/-- C10: the LCD renderer's character mapping is total on bytes: values
above 0x7f and control values below 0x20 map to the blank glyph 0x20 except
that 0x01 maps to 0x80 and 0x02 maps to 0x7c, and the resulting index into
`Font_6x8` (remapped value minus 0x20) always lies between 0 and 0x60
inclusive. -/
theorem mapLcdChar_total_inBounds (c : Nat) (h : c < 256) :
    (0x7f < c → mapLcdChar c = 0x20) ∧
    (c < 0x20 → c ≠ 0x01 → c ≠ 0x02 → mapLcdChar c = 0x20) ∧
    mapLcdChar 0x01 = 0x80 ∧
    mapLcdChar 0x02 = 0x7c ∧
    0x20 ≤ mapLcdChar c ∧
    fontIndex c ≤ 0x60 := by
  have H : ∀ c' < 256,
      (0x7f < c' → mapLcdChar c' = 0x20) ∧
      (c' < 0x20 → c' ≠ 0x01 → c' ≠ 0x02 → mapLcdChar c' = 0x20) ∧
      mapLcdChar 0x01 = 0x80 ∧
      mapLcdChar 0x02 = 0x7c ∧
      0x20 ≤ mapLcdChar c' ∧
      fontIndex c' ≤ 0x60 := by
    set_option maxRecDepth 4096 in decide
  exact H c h

theorem mapLcdChar_total_inBounds_witness :
    (0x85 : Nat) < 256 ∧
    ((0x7f < 0x85 → mapLcdChar 0x85 = 0x20) ∧
      ((0x85 : Nat) < 0x20 → (0x85 : Nat) ≠ 0x01 → (0x85 : Nat) ≠ 0x02 →
        mapLcdChar 0x85 = 0x20) ∧
      mapLcdChar 0x01 = 0x80 ∧
      mapLcdChar 0x02 = 0x7c ∧
      0x20 ≤ mapLcdChar 0x85 ∧
      fontIndex 0x85 ≤ 0x60) :=
  ⟨by decide, mapLcdChar_total_inBounds 0x85 (by decide)⟩

end LCDWidgetModel


namespace MT32Emu

/-- Is this event a `midiMessagePlayed` call? -/
def Event.isMidi : Event → Bool
  | Event.midiMessagePlayed => true
  | _ => false

/-- Is this event an `updateDisplayState` call? -/
def Event.isUpdate : Event → Bool
  | Event.updateDisplayState => true
  | _ => false

/-- The claimed characterization of the LED flag: some `midiMessagePlayed`
call occurred at a `callTime` with `callTime ≤ now < callTime +
LED_HOLD_DURATION`, and no `updateDisplayState` call in the trace was made
at a tick at or past that call's LED deadline. -/
def ledOnSpec (cfg : DisplayConfig) (T : List (Nat × Event)) (now : Nat) : Prop :=
  ∃ te ∈ T, te.2.isMidi = true ∧ te.1 ≤ now ∧ now < te.1 + cfg.LED_HOLD_DURATION ∧
    ∀ ue ∈ T, ue.2.isUpdate = true → ue.1 < te.1 + cfg.LED_HOLD_DURATION

/-- How one event transforms the LED flag/timer pair. -/
def ledPairStep (cfg : DisplayConfig) (p : Bool × Nat) (te : Nat × Event) : Bool × Nat :=
  match te.2 with
  | Event.midiMessagePlayed => (true, te.1 + cfg.LED_HOLD_DURATION)
  | Event.updateDisplayState => (p.1 && !(shouldResetTimer te.1 p.2), p.2)
  | _ => p

/-- The LED flag/timer pair after a whole trace. -/
def ledPairRun (cfg : DisplayConfig) (p : Bool × Nat) (T : List (Nat × Event)) : Bool × Nat :=
  T.foldl (ledPairStep cfg) p

theorem applyEvent_ledPair (cfg : DisplayConfig) (t : Nat) (e : Event) (s : Display) :
    ((applyEvent cfg t e s).midiMessagePlayedSinceLastReset,
      (applyEvent cfg t e s).midiMessageLEDResetTimestamp)
      = ledPairStep cfg
          (s.midiMessagePlayedSinceLastReset, s.midiMessageLEDResetTimestamp) (t, e) := by
  cases e <;>
    first
    | rfl
    | · simp only [applyEvent, customDisplayMessageReceived, scheduleDisplayReset,
          updateDisplayState, ledPairStep]
        split_ifs <;> simp_all

theorem applyTrace_ledPair (cfg : DisplayConfig) (T : List (Nat × Event)) (s : Display) :
    ((applyTrace cfg T s).midiMessagePlayedSinceLastReset,
      (applyTrace cfg T s).midiMessageLEDResetTimestamp)
      = ledPairRun cfg
          (s.midiMessagePlayedSinceLastReset, s.midiMessageLEDResetTimestamp) T := by
  induction T generalizing s with
  | nil => rfl
  | cons te T ih =>
    simp only [applyTrace, List.foldl_cons, ledPairRun] at ih ⊢
    rw [ih (applyEvent cfg te.1 te.2 s), applyEvent_ledPair]


theorem ledPairRun_append_single (cfg : DisplayConfig) (p : Bool × Nat)
    (T : List (Nat × Event)) (te : Nat × Event) :
    ledPairRun cfg p (T ++ [te]) = ledPairStep cfg (ledPairRun cfg p T) te := by
  simp [ledPairRun, List.foldl_append]

theorem ledOnSpec_append_inert (cfg : DisplayConfig) (T : List (Nat × Event))
    (t : Nat) (e : Event) (now : Nat)
    (hm : e.isMidi = false) (hu : e.isUpdate = false) :
    ledOnSpec cfg (T ++ [(t, e)]) now ↔ ledOnSpec cfg T now := by
  constructor
  · rintro ⟨te, htem, h1, h2, h3, hall⟩
    rcases List.mem_append.mp htem with hT | hx
    · exact ⟨te, hT, h1, h2, h3, fun ue hue hup =>
        hall ue (List.mem_append_left _ hue) hup⟩
    · rw [List.mem_singleton.mp hx] at h1
      simp [hm] at h1
  · rintro ⟨te, htem, h1, h2, h3, hall⟩
    refine ⟨te, List.mem_append_left _ htem, h1, h2, h3, fun ue hue hup => ?_⟩
    rcases List.mem_append.mp hue with hT | hx
    · exact hall ue hT hup
    · rw [List.mem_singleton.mp hx] at hup
      simp [hu] at hup

theorem ledOnSpec_append_update (cfg : DisplayConfig) (T : List (Nat × Event))
    (t now : Nat) (hte : t ≤ now) :
    ledOnSpec cfg (T ++ [(t, Event.updateDisplayState)]) now ↔ ledOnSpec cfg T now := by
  constructor
  · rintro ⟨te, htem, h1, h2, h3, hall⟩
    rcases List.mem_append.mp htem with hT | hx
    · exact ⟨te, hT, h1, h2, h3, fun ue hue hup =>
        hall ue (List.mem_append_left _ hue) hup⟩
    · rw [List.mem_singleton.mp hx] at h1
      simp [Event.isMidi] at h1
  · rintro ⟨te, htem, h1, h2, h3, hall⟩
    refine ⟨te, List.mem_append_left _ htem, h1, h2, h3, fun ue hue hup => ?_⟩
    rcases List.mem_append.mp hue with hT | hx
    · exact hall ue hT hup
    · rw [List.mem_singleton.mp hx]
      omega

theorem ledOnSpec_append_midi (cfg : DisplayConfig) (T : List (Nat × Event))
    (t now : Nat) (hte : t ≤ now) (hle : ∀ a ∈ T, a.1 ≤ t) :
    ledOnSpec cfg (T ++ [(t, Event.midiMessagePlayed)]) now
      ↔ now < t + cfg.LED_HOLD_DURATION := by
  constructor
  · rintro ⟨te, htem, h1, h2, h3, hall⟩
    rcases List.mem_append.mp htem with hT | hx
    · have := hle te hT
      omega
    · rw [List.mem_singleton.mp hx] at h3
      exact h3
  · intro h
    refine ⟨(t, Event.midiMessagePlayed),
      List.mem_append_right _ (List.mem_singleton.mpr rfl), rfl, hte, h,
      fun ue hue hup => ?_⟩
    rcases List.mem_append.mp hue with hT | hx
    · have := hle ue hT
      omega
    · rw [List.mem_singleton.mp hx] at hup
      simp [Event.isUpdate] at hup


theorem ledPairRun_spec (cfg : DisplayConfig) (now : Nat) :
    ∀ (T : List (Nat × Event)),
      T.Pairwise (fun a b => a.1 ≤ b.1) → (∀ te ∈ T, te.1 ≤ now) →
      (((ledPairRun cfg (false, 0) T).1 = true ∧ now < (ledPairRun cfg (false, 0) T).2)
        ↔ ledOnSpec cfg T now) := by
  intro T
  induction T using List.reverseRecOn with
  | nil =>
    intro _ _
    simp [ledPairRun, ledOnSpec]
  | append_singleton T te ih =>
    intro hmono hbnd
    obtain ⟨t, e⟩ := te
    rw [List.pairwise_append] at hmono
    obtain ⟨hTmono, -, hle⟩ := hmono
    have hle' : ∀ a ∈ T, a.1 ≤ t := fun a ha => hle a ha (t, e) (List.mem_singleton.mpr rfl)
    have hte : t ≤ now := hbnd (t, e) (List.mem_append_right _ (List.mem_singleton.mpr rfl))
    have hbndT : ∀ te ∈ T, te.1 ≤ now := fun x hx => hbnd x (List.mem_append_left _ hx)
    have ihs := ih hTmono hbndT
    rw [ledPairRun_append_single]
    cases e with
    | midiMessagePlayed =>
      rw [ledOnSpec_append_midi cfg T t now hte hle']
      simp [ledPairStep]
    | updateDisplayState =>
      rw [ledOnSpec_append_update cfg T t now hte]
      rw [← ihs]
      simp only [ledPairStep, shouldResetTimer, Bool.and_eq_true, Bool.not_eq_true,
        decide_eq_false_iff_not, Nat.not_le]
      constructor
      · rintro ⟨⟨hf, -⟩, hn⟩
        exact ⟨hf, hn⟩
      · rintro ⟨hf, hn⟩
        exact ⟨⟨hf, by simpa [Nat.not_le] using lt_of_le_of_lt hte hn⟩, hn⟩
    | rhythmNotePlayed =>
      rw [ledOnSpec_append_inert cfg T t Event.rhythmNotePlayed now rfl rfl]
      simpa [ledPairStep] using ihs
    | programChanged p =>
      rw [ledOnSpec_append_inert cfg T t (Event.programChanged p) now rfl rfl]
      simpa [ledPairStep] using ihs
    | checksumErrorOccurred =>
      rw [ledOnSpec_append_inert cfg T t Event.checksumErrorOccurred now rfl rfl]
      simpa [ledPairStep] using ihs
    | customDisplayMessageReceived m i l =>
      rw [ledOnSpec_append_inert cfg T t (Event.customDisplayMessageReceived m i l) now rfl rfl]
      simpa [ledPairStep] using ihs


/-- C5: after any monotone event trace whose ticks do not exceed `now`,
`updateDisplayState(now)` returns `ledOn = true` iff some
`midiMessagePlayed` call occurred at a `callTime` with
`callTime ≤ now < callTime + LED_HOLD_DURATION` and no `updateDisplayState`
call in the trace was made at a tick at or past that call's LED deadline;
`midiMessagePlayed` itself only sets the LED flag and LED reset timestamp
and changes nothing else. -/
theorem updateDisplayState_ledOn_iff (cfg : DisplayConfig) (T : List (Nat × Event)) (t0 now : Nat)
    (hmono : T.Pairwise (fun a b => a.1 ≤ b.1))
    (hbnd : ∀ te ∈ T, te.1 ≤ now) :
    ((updateDisplayState cfg now (applyTrace cfg T (initialDisplay cfg t0))).2.1 = true
      ↔ ledOnSpec cfg T now) ∧
    (∀ (u : Nat) (s : Display),
      (midiMessagePlayed cfg u s).midiMessagePlayedSinceLastReset = true ∧
      (midiMessagePlayed cfg u s).midiMessageLEDResetTimestamp
        = u + cfg.LED_HOLD_DURATION ∧
      (midiMessagePlayed cfg u s).mode = s.mode ∧
      (midiMessagePlayed cfg u s).displayBuffer = s.displayBuffer ∧
      (midiMessagePlayed cfg u s).customMessageBuffer = s.customMessageBuffer ∧
      (midiMessagePlayed cfg u s).displayResetTimestamp = s.displayResetTimestamp ∧
      (midiMessagePlayed cfg u s).displayResetScheduled = s.displayResetScheduled ∧
      (midiMessagePlayed cfg u s).rhythmStateResetTimestamp = s.rhythmStateResetTimestamp ∧
      (midiMessagePlayed cfg u s).rhythmNotePlayedSinceLastReset
        = s.rhythmNotePlayedSinceLastReset) := by
  refine ⟨?_, fun u s => ⟨rfl, rfl, rfl, rfl, rfl, rfl, rfl, rfl, rfl⟩⟩
  have hpair := applyTrace_ledPair cfg T (initialDisplay cfg t0)
  have hflag : (applyTrace cfg T (initialDisplay cfg t0)).midiMessagePlayedSinceLastReset
      = (ledPairRun cfg (false, 0) T).1 := congrArg Prod.fst hpair
  have hts : (applyTrace cfg T (initialDisplay cfg t0)).midiMessageLEDResetTimestamp
      = (ledPairRun cfg (false, 0) T).2 := congrArg Prod.snd hpair
  have hled := applyEvent_ledPair cfg now Event.updateDisplayState
    (applyTrace cfg T (initialDisplay cfg t0))
  have hret : (updateDisplayState cfg now (applyTrace cfg T (initialDisplay cfg t0))).2.1
      = ((applyTrace cfg T (initialDisplay cfg t0)).midiMessagePlayedSinceLastReset
          && !(shouldResetTimer now
                (applyTrace cfg T (initialDisplay cfg t0)).midiMessageLEDResetTimestamp)) :=
    congrArg Prod.fst hled
  rw [hret, hflag, hts, ← ledPairRun_spec cfg now T hmono hbnd]
  simp [shouldResetTimer, Nat.lt_iff_add_one_le, Nat.not_le]

end MT32Emu

namespace MT32Emu

theorem updateDisplayState_ledOn_iff_witness :
    (([((0 : Nat), Event.midiMessagePlayed), (10, Event.updateDisplayState)].Pairwise
        (fun a b => a.1 ≤ b.1)) ∧
      (∀ te ∈ [((0 : Nat), Event.midiMessagePlayed), (10, Event.updateDisplayState)],
        te.1 ≤ 20)) ∧
    (((updateDisplayState sampleConfig 20
        (applyTrace sampleConfig
          [((0 : Nat), Event.midiMessagePlayed), (10, Event.updateDisplayState)]
          (initialDisplay sampleConfig 0))).2.1 = true
      ↔ ledOnSpec sampleConfig
          [((0 : Nat), Event.midiMessagePlayed), (10, Event.updateDisplayState)] 20) ∧
    (∀ (u : Nat) (s : Display),
      (midiMessagePlayed sampleConfig u s).midiMessagePlayedSinceLastReset = true ∧
      (midiMessagePlayed sampleConfig u s).midiMessageLEDResetTimestamp
        = u + sampleConfig.LED_HOLD_DURATION ∧
      (midiMessagePlayed sampleConfig u s).mode = s.mode ∧
      (midiMessagePlayed sampleConfig u s).displayBuffer = s.displayBuffer ∧
      (midiMessagePlayed sampleConfig u s).customMessageBuffer = s.customMessageBuffer ∧
      (midiMessagePlayed sampleConfig u s).displayResetTimestamp = s.displayResetTimestamp ∧
      (midiMessagePlayed sampleConfig u s).displayResetScheduled
        = s.displayResetScheduled ∧
      (midiMessagePlayed sampleConfig u s).rhythmStateResetTimestamp
        = s.rhythmStateResetTimestamp ∧
      (midiMessagePlayed sampleConfig u s).rhythmNotePlayedSinceLastReset
        = s.rhythmNotePlayedSinceLastReset)) :=
  ⟨⟨by decide, by decide⟩,
   updateDisplayState_ledOn_iff sampleConfig
     [((0 : Nat), Event.midiMessagePlayed), (10, Event.updateDisplayState)] 0 20
     (by decide) (by decide)⟩

end MT32Emu


namespace SynthStateMonitorModel

/-- C9 counterexample: two consecutive `handleUpdate` invocations separated
by less than 30 ms where the second one nonetheless reads the display state:
after enabling at clock 0, an invocation at 0 reads, an invocation at 20 ms
is throttled (no read), and an invocation at 35 ms — only 15 ms after the
previous invocation — reads, because the throttle measures from the last
read, not from the last invocation. -/
theorem handleUpdate_close_invocations_counterexample :
    MINIMUM_UPDATE_INTERVAL_NANOS = 30000000 ∧
    (handleUpdate (enableMonitor ⟨false, 0⟩ true 0) 0).2 = true ∧
    (handleUpdate (handleUpdate (enableMonitor ⟨false, 0⟩ true 0) 0).1 20000000).2 = false ∧
    (35000000 - 20000000 : Int) < MINIMUM_UPDATE_INTERVAL_NANOS ∧
    (handleUpdate
        (handleUpdate (handleUpdate (enableMonitor ⟨false, 0⟩ true 0) 0).1 20000000).1
        35000000).2 = true := by
  decide

theorem runReads_first (ts : List Int) :
    ∀ (s : MonitorState) (h : Int), (runReads s ts).head? = some h →
      s.previousUpdateNanos + MINIMUM_UPDATE_INTERVAL_NANOS ≤ h := by
  induction ts with
  | nil => intro s h hh; simp [runReads] at hh
  | cons t ts ih =>
    intro s h hh
    simp only [runReads] at hh
    by_cases he : s.enabled
    · by_cases hg : t - s.previousUpdateNanos < MINIMUM_UPDATE_INTERVAL_NANOS
      · have hr : handleUpdate s t = (s, false) := by
          simp [handleUpdate, he, hg]
        rw [hr] at hh
        simp only [if_neg Bool.false_ne_true] at hh
        exact ih s h hh
      · have hr : handleUpdate s t = ({ s with previousUpdateNanos := t }, true) := by
          simp [handleUpdate, he, hg]
        rw [hr] at hh
        simp at hh
        omega
    · have hr : handleUpdate s t = (s, false) := by
        simp [handleUpdate, he]
      rw [hr] at hh
      simp only [if_neg Bool.false_ne_true] at hh
      exact ih s h hh

theorem runReads_chain (ts : List Int) :
    ∀ (s : MonitorState),
      List.Chain' (fun a b => a + MINIMUM_UPDATE_INTERVAL_NANOS ≤ b) (runReads s ts) := by
  induction ts with
  | nil => intro s; simp [runReads]
  | cons t ts ih =>
    intro s
    simp only [runReads]
    by_cases he : s.enabled
    · by_cases hg : t - s.previousUpdateNanos < MINIMUM_UPDATE_INTERVAL_NANOS
      · have hr : handleUpdate s t = (s, false) := by
          simp [handleUpdate, he, hg]
        rw [hr]
        simpa using ih s
      · have hr : handleUpdate s t = ({ s with previousUpdateNanos := t }, true) := by
          simp [handleUpdate, he, hg]
        rw [hr]
        simp only [if_true]
        rw [List.chain'_cons']
        refine ⟨fun h hh => ?_, ih _⟩
        have := runReads_first ts { s with previousUpdateNanos := t } h hh
        simpa using this
    · have hr : handleUpdate s t = (s, false) := by
        simp [handleUpdate, he]
      rw [hr]
      simpa using ih s

/-- C9 amended: consecutive display-state reads are always at least
`MINIMUM_UPDATE_INTERVAL_NANOS` (30 ms) apart — over any sequence of
`handleUpdate` invocations, the times of the invocations that actually read
form a chain whose successive elements differ by at least 30 ms — and an
invocation less than 30 ms after an invocation that read returns without
reading or repainting. -/
theorem reads_spaced_by_interval (s : MonitorState) (ts : List Int) (t1 t2 : Int)
    (hread : (handleUpdate s t1).2 = true)
    (hclose : t2 - t1 < MINIMUM_UPDATE_INTERVAL_NANOS) :
    List.Chain' (fun a b => a + MINIMUM_UPDATE_INTERVAL_NANOS ≤ b) (runReads s ts) ∧
    (handleUpdate (handleUpdate s t1).1 t2).2 = false := by
  refine ⟨runReads_chain ts s, ?_⟩
  by_cases he : s.enabled
  · by_cases hg : t1 - s.previousUpdateNanos < MINIMUM_UPDATE_INTERVAL_NANOS
    · simp [handleUpdate, he, hg] at hread
    · have hr : handleUpdate s t1 = ({ s with previousUpdateNanos := t1 }, true) := by
        simp [handleUpdate, he, hg]
      rw [hr]
      simp [handleUpdate, he, hclose]
  · simp [handleUpdate, he] at hread

end SynthStateMonitorModel

namespace SynthStateMonitorModel

theorem reads_spaced_by_interval_witness :
    ((handleUpdate ⟨true, 0⟩ 40000000).2 = true ∧
      (50000000 - 40000000 : Int) < MINIMUM_UPDATE_INTERVAL_NANOS) ∧
    (List.Chain' (fun a b => a + MINIMUM_UPDATE_INTERVAL_NANOS ≤ b)
        (runReads ⟨true, 0⟩ [0, 20000000, 35000000, 70000000]) ∧
      (handleUpdate (handleUpdate ⟨true, 0⟩ 40000000).1 50000000).2 = false) :=
  ⟨⟨by decide, by decide⟩,
   reads_spaced_by_interval ⟨true, 0⟩ [0, 20000000, 35000000, 70000000] 40000000 50000000
     (by decide) (by decide)⟩

end SynthStateMonitorModel
